import Mathlib

/-
Verification development for the pv molecular viewer excerpt.

The excerpt of the repository contains only the Grunt build file
(src/Gruntfile.js) and the documentation of the coloring subsystem; the
implementation files it concatenates (src/core.js, src/shade.js, ...) are not
part of the excerpt.  The build-file definitions below are translated directly
from src/Gruntfile.js; everything about colors, coloring operations and
geometry buffers is modelled from the specification text, as indicated by the
doc comments.
-/

/-! ## Color data model -/

/-- Modelled from the spec: an RGBA color with components as exact rationals
in the unit interval (spec section 4.1); the implementing file src/shade.js is
missing from the excerpt. -/
structure Color where
  r : ℚ
  g : ℚ
  b : ℚ
  a : ℚ
deriving DecidableEq, Repr

instance : Inhabited Color := ⟨⟨0, 0, 0, 1⟩⟩

/-- Modelled from the spec: a color specification is either a string
(hash-prefixed hex notation, or a named color) or a numeric array of
floating-point components (spec section 4.1). -/
inductive ColorSpec where
  | str (s : String)
  | arr (l : List ℚ)

/-- Modelled from the spec: the error reported for malformed color
specifications (spec section 7). -/
inductive ColorError where
  | invalidColorSpec
deriving DecidableEq

/-- Modelled from the spec: numeric value of one hexadecimal digit character;
none when the character is not a hexadecimal digit. -/
def hexVal (c : Char) : Option ℕ :=
  if ('0' ≤ c ∧ c ≤ '9') then some (c.toNat - '0'.toNat)
  else if ('a' ≤ c ∧ c ≤ 'f') then some (c.toNat - 'a'.toNat + 10)
  else if ('A' ≤ c ∧ c ≤ 'F') then some (c.toNat - 'A'.toNat + 10)
  else none

/-- Modelled from the spec: parse a list of hexadecimal digit characters into
their numeric values; fails when some character is not a hexadecimal digit. -/
def parseHexList : List Char → Option (List ℕ)
  | [] => some []
  | c :: cs => (hexVal c).bind fun v => (parseHexList cs).map fun vs => v :: vs

/-- Modelled from the spec (section 4.1): convert 3, 4, 6 or 8 hexadecimal
digit values to an RGBA color.  One digit per component maps via value/15, two
digits per component via value/255; the 3 and 6 digit forms imply alpha 1.
Any other digit count is a malformed color specification. -/
def hexColor : List ℕ → Except ColorError Color
  | [r, g, b] => .ok ⟨(r : ℚ) / 15, (g : ℚ) / 15, (b : ℚ) / 15, 1⟩
  | [r, g, b, a] => .ok ⟨(r : ℚ) / 15, (g : ℚ) / 15, (b : ℚ) / 15, (a : ℚ) / 15⟩
  | [r1, r2, g1, g2, b1, b2] =>
      .ok ⟨((16 * r1 + r2 : ℕ) : ℚ) / 255, ((16 * g1 + g2 : ℕ) : ℚ) / 255,
           ((16 * b1 + b2 : ℕ) : ℚ) / 255, 1⟩
  | [r1, r2, g1, g2, b1, b2, a1, a2] =>
      .ok ⟨((16 * r1 + r2 : ℕ) : ℚ) / 255, ((16 * g1 + g2 : ℕ) : ℚ) / 255,
           ((16 * b1 + b2 : ℕ) : ℚ) / 255, ((16 * a1 + a2 : ℕ) : ℚ) / 255⟩
  | _ => .error .invalidColorSpec

/-- Modelled from the spec: the fixed closed table of named colors (spec
section 4.1 and the table in the color documentation).  The spec fixes the
name set; the exact RGB values of most entries are not given in the excerpt,
only red must resolve to RGBA(1,0,0,1) and blue to pure blue. -/
def namedColor (s : String) : Option Color :=
  if s = "white" then some ⟨1, 1, 1, 1⟩
  else if s = "black" then some ⟨0, 0, 0, 1⟩
  else if s = "grey" then some ⟨1/2, 1/2, 1/2, 1⟩
  else if s = "lightgrey" then some ⟨4/5, 4/5, 4/5, 1⟩
  else if s = "darkgrey" then some ⟨3/10, 3/10, 3/10, 1⟩
  else if s = "red" then some ⟨1, 0, 0, 1⟩
  else if s = "darkred" then some ⟨1/2, 0, 0, 1⟩
  else if s = "lightred" then some ⟨1, 1/2, 1/2, 1⟩
  else if s = "green" then some ⟨0, 1, 0, 1⟩
  else if s = "darkgreen" then some ⟨0, 1/2, 0, 1⟩
  else if s = "lightgreen" then some ⟨1/2, 1, 1/2, 1⟩
  else if s = "blue" then some ⟨0, 0, 1, 1⟩
  else if s = "darkblue" then some ⟨0, 0, 1/2, 1⟩
  else if s = "lightblue" then some ⟨1/2, 1/2, 1, 1⟩
  else if s = "yellow" then some ⟨1, 1, 0, 1⟩
  else if s = "darkyellow" then some ⟨1/2, 1/2, 0, 1⟩
  else if s = "lightyellow" then some ⟨1, 1, 1/2, 1⟩
  else if s = "cyan" then some ⟨0, 1, 1, 1⟩
  else if s = "darkcyan" then some ⟨0, 1/2, 1/2, 1⟩
  else if s = "lightcyan" then some ⟨1/2, 1, 1, 1⟩
  else if s = "magenta" then some ⟨1, 0, 1, 1⟩
  else if s = "darkmagenta" then some ⟨1/2, 0, 1/2, 1⟩
  else if s = "lightmagenta" then some ⟨1, 1/2, 1, 1⟩
  else if s = "orange" then some ⟨1, 1/2, 0, 1⟩
  else if s = "darkorange" then some ⟨1/2, 1/4, 0, 1⟩
  else if s = "lightorange" then some ⟨1, 3/4, 1/4, 1⟩
  else none

/-- Modelled from the spec: resolve a named color string to a color, or fail
with InvalidColorSpec for an unrecognized name. -/
def resolveName (s : String) : Except ColorError Color :=
  match namedColor s with
  | some c => .ok c
  | none => .error .invalidColorSpec

/-- Modelled from the spec: resolve a numeric array of components to a color.
The array must have length 3 (alpha defaults to 1) or 4, and every component
must lie in the unit interval; otherwise InvalidColorSpec. -/
def resolveArr (l : List ℚ) : Except ColorError Color :=
  if ∀ x ∈ l, 0 ≤ x ∧ x ≤ 1 then
    match l with
    | [r, g, b] => .ok ⟨r, g, b, 1⟩
    | [r, g, b, a] => .ok ⟨r, g, b, a⟩
    | _ => .error .invalidColorSpec
  else .error .invalidColorSpec

/-- Modelled from the spec (section 4.1): resolveColor accepts a
hash-prefixed hexadecimal string, a named color string, or a numeric array,
and fails with InvalidColorSpec on anything malformed. -/
def resolveColor : ColorSpec → Except ColorError Color
  | .arr l => resolveArr l
  | .str s =>
    match s.data with
    | [] => resolveName s
    | c :: rest => if c = '#' then
        match parseHexList rest with
        | some ds => hexColor ds
        | none => .error .invalidColorSpec
      else resolveName s

/-! ## Build file (translated from src/Gruntfile.js) -/

/-- A JavaScript value, as far as the build file needs: strings, numbers,
arrays and the undefined value. -/
inductive JsVal where
  | undef
  | num (n : ℕ)
  | str (s : String)
  | arr (l : List JsVal)

/-- JavaScript Array constructor applied to one argument: a single numeric
argument builds an array of that many holes; any other single argument builds
the one-element array holding it. -/
def jsNewArray1 : JsVal → JsVal
  | .num n => .arr (List.replicate n .undef)
  | v => .arr [v]

/-- JavaScript Array.prototype.push: appends the value to an array (and is a
no-op on non-arrays, which does not arise here). -/
def jsPush (a v : JsVal) : JsVal :=
  match a with
  | .arr l => .arr (l ++ [v])
  | x => x

/-- The seven source file paths listed in SOURCE_FILES in src/Gruntfile.js. -/
def sourceFileNames : List String :=
  ["src/core.js", "src/geom.js", "src/shade.js", "src/scene.js",
   "src/mol.js", "src/render.js", "src/viewer.js"]

/-- SOURCE_FILES from src/Gruntfile.js: an array of the seven path strings. -/
def SOURCE_FILES : JsVal := .arr (sourceFileNames.map .str)

/-- ALL_FILES from src/Gruntfile.js: new Array(SOURCE_FILES) followed by
ALL_FILES.push of the gl-matrix path. -/
def ALL_FILES : JsVal := jsPush (jsNewArray1 SOURCE_FILES) (.str "src/gl-matrix.js")

/-- The src list of the concat task in src/Gruntfile.js, which is ALL_FILES. -/
def concatSrc : JsVal := ALL_FILES

/-- The flat eight-element file list one might expect ALL_FILES to be. -/
def flatEightFiles : JsVal :=
  .arr ((sourceFileNames ++ ["src/gl-matrix.js"]).map .str)

/-! ## Gradients -/

/-- Modelled from the spec: linear interpolation between two colors. -/
def lerpColor (c0 c1 : Color) (f : ℚ) : Color :=
  ⟨c0.r + f * (c1.r - c0.r), c0.g + f * (c1.g - c0.g),
   c0.b + f * (c1.b - c0.b), c0.a + f * (c1.a - c0.a)⟩

/-- Modelled from the spec: clamp a parameter to the unit interval. -/
def clamp01 (t : ℚ) : ℚ := if t < 0 then 0 else if 1 < t then 1 else t

/-- Modelled from the spec: walk the evenly spaced stop list; the parameter x
is measured in whole segments from the first remaining stop. -/
def segSample : List Color → ℚ → Color
  | [], _ => ⟨0, 0, 0, 1⟩
  | [c], _ => c
  | c0 :: c1 :: rest, x =>
    if x ≤ 1 then lerpColor c0 c1 x else segSample (c1 :: rest) (x - 1)

/-- Modelled from the spec (section 4.1): sample an evenly spaced stop list at
a parameter clamped to the unit interval, linearly interpolating between the
two stops bracketing the parameter. -/
def gsample (stops : List Color) (t : ℚ) : Color :=
  segSample stops (clamp01 t * ((stops.length : ℚ) - 1))

/-- Modelled from the spec: the default rainbow gradient stop list, blue over
green and yellow to red. -/
def rainbowStops : List Color :=
  [⟨0, 0, 1, 1⟩, ⟨0, 1, 0, 1⟩, ⟨1, 1, 0, 1⟩, ⟨1, 0, 0, 1⟩]

/-! ## Molecular data model -/

/-- Modelled from the spec: secondary structure classification of a residue. -/
inductive SecStructure where
  | helix
  | strand
  | coil
deriving DecidableEq

/-- Modelled from the spec (section 3): an atom carries identity, a numeric
index, and named numeric custom properties. -/
structure Atom where
  name : String
  element : String
  index : ℕ
  props : List (String × ℚ)
deriving DecidableEq

/-- Modelled from the spec: a residue is an ordered set of atoms with a
secondary structure classification. -/
structure Residue where
  atoms : List Atom
  ss : SecStructure
deriving DecidableEq

/-- Modelled from the spec: a chain is an ordered list of residues with an
identity label. -/
structure Chain where
  name : String
  residues : List Residue
deriving DecidableEq

/-- Modelled from the spec: a structure is an ordered list of chains. -/
structure MolStructure where
  chains : List Chain
deriving DecidableEq

/-! ## Coloring operations -/

/-- Modelled from the spec: the gradient position byChain assigns to chain
index i of count chains, namely i/(count-1), or 0 when the count is at most
one. -/
def chainT (count i : ℕ) : ℚ :=
  if count ≤ 1 then 0 else (i : ℚ) / ((count : ℚ) - 1)

/-- Modelled from the spec: byChain colorFor, the precomputed color of chain
index i of a structure, drawn from the gradient. -/
def byChainCF (stops : List Color) (s : MolStructure) (i : ℕ) : Color :=
  gsample stops (chainT s.chains.length i)

/-- Modelled from the spec: the colors byChain assigns to the chains of a
structure, in structure order. -/
def byChainColors (stops : List Color) (s : MolStructure) : List Color :=
  (List.range s.chains.length).map (byChainCF stops s)

/-- Modelled from the spec: rainbow normalizes the 0-based residue position in
its chain by (chain length - 1), with position 0 for a degenerate chain. -/
def rainbowT (len idx : ℕ) : ℚ :=
  if len ≤ 1 then 0 else (idx : ℚ) / ((len : ℚ) - 1)

/-- Modelled from the spec: rainbow colorFor on residue index idx of a chain. -/
def rainbowCF (stops : List Color) (ch : Chain) (idx : ℕ) : Color :=
  gsample stops (rainbowT ch.residues.length idx)

/-- Modelled from the spec: byAtomProp and byResidueProp normalize a property
value via (value - min)/(max - min), 0 when max equals min. -/
def propT (minV maxV v : ℚ) : ℚ :=
  if maxV = minV then 0 else (v - minV) / (maxV - minV)

/-- Modelled from the spec: property-based colorFor with an explicit range. -/
def byPropCF (stops : List Color) (minV maxV v : ℚ) : Color :=
  gsample stops (propT minV maxV v)

/-- Modelled from the spec: the uniform coloring operation writes one resolved
color for every source entity. -/
def uniform (c : Color) : ℕ → Color := fun _ => c

/-! ## Geometry object and recoloring -/

/-- Modelled from the spec (section 3): a geometry object owns flat buffers:
position (3 floats per vertex), normal (3 floats per vertex), color (4 floats
per vertex), picking id (1 integer per vertex), and the parallel source-index
buffer mapping each vertex to its originating atom or residue. -/
structure GeomObject where
  positions : List ℚ
  normals : List ℚ
  colors : List ℚ
  pickingIds : List ℕ
  sourceIdx : List ℕ
deriving DecidableEq

/-- Modelled from the spec: the vertex count of a geometry object, one entry
of the source-index buffer per vertex. -/
def vertexCount (g : GeomObject) : ℕ := g.sourceIdx.length

/-- Modelled from the spec: the four floats written for one vertex color. -/
def colorToFloats (c : Color) : List ℚ := [c.r, c.g, c.b, c.a]

/-- Modelled from the spec (section 4.5): colorBy (recolor) re-runs only the
coloring operation and overwrites the color buffer through the existing
source-index buffer; all other buffers are carried over unchanged. -/
def colorBy (g : GeomObject) (cf : ℕ → Color) : GeomObject :=
  { g with colors := (g.sourceIdx.map (fun i => colorToFloats (cf i))).flatten }

/-- Modelled from the spec: the error reported by setOpacity for an alpha
outside the unit interval. -/
inductive OpacityError where
  | invalidOpacity
deriving DecidableEq

/-- Modelled from the spec: write alpha into every fourth float of the color
buffer, counting float positions from k. -/
def setAlphaAux (a : ℚ) : ℕ → List ℚ → List ℚ
  | _, [] => []
  | k, x :: xs => (if k % 4 = 3 then a else x) :: setAlphaAux a (k + 1) xs

/-- Modelled from the spec: overwrite the alpha channel of every vertex color
in the color buffer. -/
def setAlpha (a : ℚ) (l : List ℚ) : List ℚ := setAlphaAux a 0 l

/-- Modelled from the spec (section 4.5): setOpacity overwrites only the alpha
channel of every vertex color, and fails with InvalidOpacity for an alpha
outside the unit interval. -/
def setOpacity (g : GeomObject) (a : ℚ) : Except OpacityError GeomObject :=
  if 0 ≤ a ∧ a ≤ 1 then .ok { g with colors := setAlpha a g.colors }
  else .error .invalidOpacity

/-! ## Coloring operation lifecycle -/

/-- Modelled from the spec: observable lifecycle events of a coloring
operation during buffer assembly or recoloring. -/
inductive ColorEvent where
  | begun
  | colored (i : ℕ)
  | ended
deriving DecidableEq

/-- Modelled from the spec: the colorFor loop over the source entities in the
given order; a colorFor call may report an error (none), after which no
further colorFor call is made. -/
def colorLoop (cf : ℕ → Option Color) : List ℕ → List ColorEvent
  | [] => []
  | i :: rest =>
    match cf i with
    | none => [.colored i]
    | some _ => .colored i :: colorLoop cf rest

/-- Modelled from the spec (section 4.2): one full lifecycle run: begin is
called first, colorFor once per source entity in the given order, and end is
always called last, also when a colorFor call reported an error. -/
def lifecycleEvents (cf : ℕ → Option Color) (idxs : List ℕ) : List ColorEvent :=
  .begun :: (colorLoop cf idxs ++ [.ended])

/-! ## Helper lemmas about color resolution -/

theorem parseHexList_length :
    ∀ (cs : List Char) (ds : List ℕ), parseHexList cs = some ds → ds.length = cs.length := by
  intro cs
  induction cs with
  | nil =>
    intro ds h
    simp only [parseHexList, Option.some.injEq] at h
    subst h
    rfl
  | cons c cs ih =>
    intro ds h
    simp only [parseHexList, Option.bind_eq_some, Option.map_eq_some'] at h
    obtain ⟨v, hv, vs, hvs, hcons⟩ := h
    subst hcons
    simp [ih vs hvs]

theorem hexColor_error_iff (ds : List ℕ) :
    hexColor ds = .error .invalidColorSpec ↔
      ¬(ds.length = 3 ∨ ds.length = 4 ∨ ds.length = 6 ∨ ds.length = 8) := by
  rcases ds with _ | ⟨d1, _ | ⟨d2, _ | ⟨d3, _ | ⟨d4, _ | ⟨d5, _ | ⟨d6, _ | ⟨d7, _ | ⟨d8, _ | ⟨d9, rest⟩⟩⟩⟩⟩⟩⟩⟩⟩ <;>
    simp [hexColor]

theorem hexColor_alpha_one (ds : List ℕ) (h : ds.length = 3 ∨ ds.length = 6) :
    ∃ c, hexColor ds = .ok c ∧ c.a = 1 := by
  rcases ds with _ | ⟨d1, _ | ⟨d2, _ | ⟨d3, _ | ⟨d4, _ | ⟨d5, _ | ⟨d6, _ | ⟨d7, rest⟩⟩⟩⟩⟩⟩⟩
  all_goals first
    | exact ⟨_, rfl, rfl⟩
    | (exfalso
       simp only [List.length_cons, List.length_nil] at h
       omega)

theorem resolveColor_hash_some (s : String) (cs : List Char) (ds : List ℕ)
    (h : s.data = '#' :: cs) (hp : parseHexList cs = some ds) :
    resolveColor (.str s) = hexColor ds := by
  simp [resolveColor, h, hp]

theorem resolveColor_hash_none (s : String) (cs : List Char)
    (h : s.data = '#' :: cs) (hp : parseHexList cs = none) :
    resolveColor (.str s) = .error .invalidColorSpec := by
  simp [resolveColor, h, hp]

theorem resolveColor_noHash (s : String) (c : Char) (cs : List Char)
    (h : s.data = c :: cs) (hc : c ≠ '#') :
    resolveColor (.str s) = resolveName s := by
  simp only [resolveColor, h, if_neg hc]

theorem resolveColor_emptyStr (s : String) (h : s.data = []) :
    resolveColor (.str s) = resolveName s := by
  simp only [resolveColor, h]

theorem resolveName_error_iff (s : String) :
    resolveName s = .error .invalidColorSpec ↔ namedColor s = none := by
  unfold resolveName
  rcases h : namedColor s with _ | c <;> simp [h]

theorem resolveArr_error_iff (l : List ℚ) :
    resolveArr l = .error .invalidColorSpec ↔
      ¬((l.length = 3 ∨ l.length = 4) ∧ ∀ x ∈ l, 0 ≤ x ∧ x ≤ 1) := by
  unfold resolveArr
  by_cases hall : ∀ x ∈ l, 0 ≤ x ∧ x ≤ 1
  · rw [if_pos hall]
    rcases l with _ | ⟨x1, _ | ⟨x2, _ | ⟨x3, _ | ⟨x4, _ | ⟨x5, rest⟩⟩⟩⟩⟩ <;>
      simp_all
  · rw [if_neg hall]
    simp [hall]

/-! ## Helper lemmas about gradient sampling -/

theorem gsample_rainbow_zero : gsample rainbowStops 0 = ⟨0, 0, 1, 1⟩ := by
  norm_num [gsample, clamp01, segSample, lerpColor, rainbowStops]

theorem gsample_rainbow_one : gsample rainbowStops 1 = ⟨1, 0, 0, 1⟩ := by
  norm_num [gsample, clamp01, segSample, lerpColor, rainbowStops]

theorem gsample_rainbow_half : gsample rainbowStops (1/2) = ⟨1/2, 1, 0, 1⟩ := by
  norm_num [gsample, clamp01, segSample, lerpColor, rainbowStops]

theorem gsample_rainbow_third : gsample rainbowStops (1/3) = ⟨0, 1, 0, 1⟩ := by
  norm_num [gsample, clamp01, segSample, lerpColor, rainbowStops]

theorem gsample_rainbow_twoThirds : gsample rainbowStops (2/3) = ⟨1, 1, 0, 1⟩ := by
  norm_num [gsample, clamp01, segSample, lerpColor, rainbowStops]

/-! ## Helper lemmas about the alpha channel write -/

theorem setAlphaAux_length (a : ℚ) :
    ∀ (l : List ℚ) (k : ℕ), (setAlphaAux a k l).length = l.length := by
  intro l
  induction l with
  | nil => intro k; rfl
  | cons x xs ih => intro k; simp [setAlphaAux, ih]

theorem setAlphaAux_getD (a : ℚ) :
    ∀ (l : List ℚ) (k j : ℕ), j < l.length →
      (setAlphaAux a k l).getD j 0 = if (k + j) % 4 = 3 then a else l.getD j 0 := by
  intro l
  induction l with
  | nil => intro k j h; simp at h
  | cons x xs ih =>
    intro k j h
    cases j with
    | zero => simp [setAlphaAux]
    | succ j =>
      have hlt : j < xs.length := by simpa using Nat.lt_of_succ_lt_succ h
      have hih := ih (k + 1) j hlt
      simp only [setAlphaAux, List.getD_cons_succ]
      rw [hih]
      have hk : k + 1 + j = k + (j + 1) := by omega
      rw [hk]

/-! ## Helper lemmas about the lifecycle -/

theorem colorLoop_shape (cf : ℕ → Option Color) :
    ∀ idxs : List ℕ, ∃ l, List.Sublist l idxs ∧ colorLoop cf idxs = l.map ColorEvent.colored := by
  intro idxs
  induction idxs with
  | nil => exact ⟨[], List.Sublist.refl [], rfl⟩
  | cons i rest ih =>
    rcases h : cf i with _ | c
    · refine ⟨[i], ?_, ?_⟩
      · exact List.singleton_sublist.2 (List.mem_cons_self i rest)
      · simp [colorLoop, h]
    · obtain ⟨l, hsub, heq⟩ := ih
      refine ⟨i :: l, List.Sublist.cons₂ i hsub, ?_⟩
      simp [colorLoop, h, heq]

theorem colorLoop_all_some (cf : ℕ → Option Color) :
    ∀ idxs : List ℕ, (∀ i ∈ idxs, (cf i).isSome) →
      colorLoop cf idxs = idxs.map ColorEvent.colored := by
  intro idxs
  induction idxs with
  | nil => intro _; rfl
  | cons i rest ih =>
    intro h
    have hi := h i (List.mem_cons_self i rest)
    rcases hcf : cf i with _ | c
    · rw [hcf] at hi; simp at hi
    · simp [colorLoop, hcf, ih (fun j hj => h j (List.mem_cons_of_mem i hj))]

theorem colorLoop_mem (cf : ℕ → Option Color) :
    ∀ (idxs : List ℕ) (e : ColorEvent), e ∈ colorLoop cf idxs → ∃ i, e = .colored i := by
  intro idxs
  induction idxs with
  | nil => intro e h; simp [colorLoop] at h
  | cons i rest ih =>
    intro e h
    simp only [colorLoop] at h
    rcases hcf : cf i with _ | c <;> rw [hcf] at h
    · simp at h; exact ⟨i, h⟩
    · rcases List.mem_cons.mp h with h1 | h2
      · exact ⟨i, h1⟩
      · exact ih e h2

/-! ## Claim theorems -/

/-- C10: In src/Gruntfile.js, ALL_FILES is new Array(SOURCE_FILES) followed by
a push of the gl-matrix path, so it evaluates to a two-element array whose
first element is the SOURCE_FILES array itself, nested, and not to the flat
eight-element list of file paths; the src list of the concat task is therefore
not the flat list of eight files. -/
theorem allFiles_is_nested_pair :
    ALL_FILES = .arr [SOURCE_FILES, .str "src/gl-matrix.js"] ∧
    concatSrc = .arr [SOURCE_FILES, .str "src/gl-matrix.js"] ∧
    ALL_FILES ≠ flatEightFiles := by
  refine ⟨rfl, rfl, ?_⟩
  simp [ALL_FILES, flatEightFiles, SOURCE_FILES, sourceFileNames, jsPush, jsNewArray1]

/-- C3: resolveColor applied to the hex string #f00, the hex string #ff0000,
the array [1,0,0,1] and the name red all return RGBA(1,0,0,1); resolving the
hex string #f00f equals resolving #ff0000ff. -/
theorem resolveColor_red_forms :
    resolveColor (.str "#f00") = .ok ⟨1, 0, 0, 1⟩ ∧
    resolveColor (.str "#ff0000") = .ok ⟨1, 0, 0, 1⟩ ∧
    resolveColor (.arr [1, 0, 0, 1]) = .ok ⟨1, 0, 0, 1⟩ ∧
    resolveColor (.str "red") = .ok ⟨1, 0, 0, 1⟩ ∧
    resolveColor (.str "#f00f") = resolveColor (.str "#ff0000ff") := by
  refine ⟨?_, ?_, rfl, rfl, ?_⟩
  · show hexColor [15, 0, 0] = .ok ⟨1, 0, 0, 1⟩
    norm_num [hexColor]
  · show hexColor [15, 15, 0, 0, 0, 0] = .ok ⟨1, 0, 0, 1⟩
    norm_num [hexColor]
  · show hexColor [15, 0, 0, 15] = hexColor [15, 15, 0, 0, 0, 0, 15, 15]
    norm_num [hexColor]

/-- C4: resolveColor fails with InvalidColorSpec exactly on malformed input: a
hash-prefixed hex string whose digit count is not 3, 4, 6 or 8; a numeric
array whose length is not 3 or 4 or with a component outside the unit
interval; or an unrecognized color name.  Valid 3 or 6 digit hex input yields
alpha exactly 1. -/
theorem resolveColor_error_characterization :
    (∀ (s : String) (cs : List Char) (ds : List ℕ),
      s.data = '#' :: cs → parseHexList cs = some ds →
      (resolveColor (.str s) = .error .invalidColorSpec ↔
        ¬(cs.length = 3 ∨ cs.length = 4 ∨ cs.length = 6 ∨ cs.length = 8))) ∧
    (∀ l : List ℚ,
      resolveColor (.arr l) = .error .invalidColorSpec ↔
        ¬((l.length = 3 ∨ l.length = 4) ∧ ∀ x ∈ l, 0 ≤ x ∧ x ≤ 1)) ∧
    (∀ (s : String) (c : Char) (cs : List Char), s.data = c :: cs → c ≠ '#' →
      (resolveColor (.str s) = .error .invalidColorSpec ↔ namedColor s = none)) ∧
    (∀ (s : String) (cs : List Char) (ds : List ℕ),
      s.data = '#' :: cs → parseHexList cs = some ds →
      cs.length = 3 ∨ cs.length = 6 →
      ∃ c, resolveColor (.str s) = .ok c ∧ c.a = 1) := by
  refine ⟨?_, ?_, ?_, ?_⟩
  · intro s cs ds hdata hp
    rw [resolveColor_hash_some s cs ds hdata hp, hexColor_error_iff,
        parseHexList_length cs ds hp]
  · intro l
    exact resolveArr_error_iff l
  · intro s c cs hdata hc
    rw [resolveColor_noHash s c cs hdata hc, resolveName_error_iff]
  · intro s cs ds hdata hp hlen
    rw [resolveColor_hash_some s cs ds hdata hp]
    refine hexColor_alpha_one ds ?_
    rw [parseHexList_length cs ds hp]
    exact hlen

/-- Witness for C4 at concrete inputs: a 5-digit hex string fails, an array
with a component above 1 fails, an unrecognized name fails, and a valid
6-digit hex string gets alpha exactly 1. -/
theorem resolveColor_error_characterization_witness :
    (resolveColor (.str "#ff000") = .error .invalidColorSpec ↔
      ¬((['f','f','0','0','0'] : List Char).length = 3 ∨
        (['f','f','0','0','0'] : List Char).length = 4 ∨
        (['f','f','0','0','0'] : List Char).length = 6 ∨
        (['f','f','0','0','0'] : List Char).length = 8)) ∧
    (resolveColor (.arr [2, 0, 0]) = .error .invalidColorSpec ↔
      ¬((([2, 0, 0] : List ℚ).length = 3 ∨ ([2, 0, 0] : List ℚ).length = 4) ∧
        ∀ x ∈ ([2, 0, 0] : List ℚ), 0 ≤ x ∧ x ≤ 1)) ∧
    (resolveColor (.str "notacolor") = .error .invalidColorSpec ↔
      namedColor "notacolor" = none) ∧
    (∃ c, resolveColor (.str "#ff0000") = .ok c ∧ c.a = 1) :=
  ⟨resolveColor_error_characterization.1 "#ff000" ['f','f','0','0','0'] [15,15,0,0,0]
      (by decide) (by decide),
   resolveColor_error_characterization.2.1 [2, 0, 0],
   resolveColor_error_characterization.2.2.1 "notacolor" 'n'
      ['o','t','a','c','o','l','o','r'] (by decide) (by decide),
   resolveColor_error_characterization.2.2.2 "#ff0000" ['f','f','0','0','0','0']
      [15,15,0,0,0,0] (by decide) (by decide) (by decide)⟩

/-- A small concrete two-vertex geometry object used by the witnesses. -/
def demoGeom : GeomObject :=
  ⟨[0, 0, 0, 1, 0, 0], [0, 0, 1, 0, 0, 1], [1, 0, 0, 1, 1, 0, 0, 1], [7, 8], [4, 5]⟩

/-- C1: the source-index buffer is invariant: recoloring with any coloring
operation and any successful opacity change leave every entry of the
source-index buffer unchanged, for the whole lifetime of the geometry
object. -/
theorem sourceIdx_invariant (g : GeomObject) (cf : ℕ → Color) (a : ℚ) (g2 : GeomObject) :
    (colorBy g cf).sourceIdx = g.sourceIdx ∧
    (setOpacity g a = .ok g2 → g2.sourceIdx = g.sourceIdx) := by
  constructor
  · rfl
  · intro h
    unfold setOpacity at h
    split at h
    · injection h with h2
      rw [← h2]
    · exact Except.noConfusion h

/-- Witness for C1: a concrete recolor and a concrete opacity change on a
two-vertex geometry object keep the source-index buffer equal. -/
theorem sourceIdx_invariant_witness :
    (colorBy demoGeom (uniform ⟨0, 0, 1, 1⟩)).sourceIdx = demoGeom.sourceIdx ∧
    ({ demoGeom with colors := setAlpha 1 demoGeom.colors } : GeomObject).sourceIdx
      = demoGeom.sourceIdx :=
  ⟨(sourceIdx_invariant demoGeom (uniform ⟨0, 0, 1, 1⟩) 1
      { demoGeom with colors := setAlpha 1 demoGeom.colors }).1,
   (sourceIdx_invariant demoGeom (uniform ⟨0, 0, 1, 1⟩) 1
      { demoGeom with colors := setAlpha 1 demoGeom.colors }).2 rfl⟩

/-- C2: recoloring overwrites only the color buffer: positions, normals,
picking ids and the vertex count are unchanged by colorBy for every coloring
operation; recoloring with uniform blue after a build with uniform red yields
an entirely blue color buffer with alpha 1 and a bit-identical position
buffer. -/
theorem colorBy_overwrites_only_colors (g : GeomObject) (cf : ℕ → Color) :
    (colorBy g cf).positions = g.positions ∧
    (colorBy g cf).normals = g.normals ∧
    (colorBy g cf).pickingIds = g.pickingIds ∧
    vertexCount (colorBy g cf) = vertexCount g ∧
    resolveColor (.str "red") = .ok ⟨1, 0, 0, 1⟩ ∧
    resolveColor (.str "blue") = .ok ⟨0, 0, 1, 1⟩ ∧
    (colorBy (colorBy g (uniform ⟨1, 0, 0, 1⟩)) (uniform ⟨0, 0, 1, 1⟩)).colors
      = (List.replicate (vertexCount g) ([0, 0, 1, 1] : List ℚ)).flatten ∧
    (colorBy (colorBy g (uniform ⟨1, 0, 0, 1⟩)) (uniform ⟨0, 0, 1, 1⟩)).positions
      = (colorBy g (uniform ⟨1, 0, 0, 1⟩)).positions := by
  refine ⟨rfl, rfl, rfl, rfl, rfl, rfl, ?_, rfl⟩
  simp [colorBy, uniform, colorToFloats, vertexCount, List.map_const']

/-- C9: setOpacity with alpha in the unit interval succeeds, writes alpha into
every fourth float of the color buffer, leaves the other color floats and all
other buffers unchanged, and fails with InvalidOpacity for alpha outside the
unit interval. -/
theorem setOpacity_characterization (g : GeomObject) (a : ℚ) :
    (0 ≤ a → a ≤ 1 →
      setOpacity g a = .ok { g with colors := setAlpha a g.colors } ∧
      (setAlpha a g.colors).length = g.colors.length ∧
      (∀ k, k < g.colors.length →
        (setAlpha a g.colors).getD k 0 =
          if k % 4 = 3 then a else g.colors.getD k 0)) ∧
    (¬(0 ≤ a ∧ a ≤ 1) → setOpacity g a = .error .invalidOpacity) := by
  constructor
  · intro h0 h1
    refine ⟨?_, setAlphaAux_length a g.colors 0, ?_⟩
    · unfold setOpacity
      rw [if_pos ⟨h0, h1⟩]
    · intro k hk
      have h := setAlphaAux_getD a g.colors 0 k hk
      simpa [setAlpha] using h
  · intro h
    unfold setOpacity
    rw [if_neg h]

/-- Witness for C9: a concrete opacity 0 succeeds on a two-vertex geometry
object, and a concrete opacity 2 fails with InvalidOpacity. -/
theorem setOpacity_characterization_witness :
    setOpacity demoGeom 0 = .ok { demoGeom with colors := setAlpha 0 demoGeom.colors } ∧
    setOpacity demoGeom 2 = .error .invalidOpacity :=
  ⟨((setOpacity_characterization demoGeom 0).1 (by decide) (by decide)).1,
   (setOpacity_characterization demoGeom 2).2 (by decide)⟩

/-- A concrete atom, residue and chains used by the witnesses. -/
def demoAtom : Atom := ⟨"CA", "C", 0, []⟩

/-- A concrete single-atom helix residue used by the witnesses. -/
def demoResidue : Residue := ⟨[demoAtom], .helix⟩

/-- A concrete single-residue chain used by the witnesses. -/
def demoChainA : Chain := ⟨"A", [demoResidue]⟩

/-- A second concrete single-residue chain used by the witnesses. -/
def demoChainB : Chain := ⟨"B", [demoResidue]⟩

/-- A concrete two-chain structure used by the witnesses. -/
def demoStructure : MolStructure := ⟨[demoChainA, demoChainB]⟩

/-- C6: for a chain with a single residue the rainbow coloring maps that
residue to gradient position 0: the normalization guard avoids the division
by zero and the sampled color is the well-defined first gradient stop. -/
theorem rainbow_single_residue (ch : Chain) (h : ch.residues.length = 1) :
    rainbowT ch.residues.length 0 = 0 ∧
    rainbowCF rainbowStops ch 0 = ⟨0, 0, 1, 1⟩ := by
  have h0 : rainbowT ch.residues.length 0 = 0 := by
    rw [h]
    simp [rainbowT]
  refine ⟨h0, ?_⟩
  simp only [rainbowCF, h0, gsample_rainbow_zero]

/-- Witness for C6: the single-residue demo chain receives gradient position 0
and the first rainbow stop. -/
theorem rainbow_single_residue_witness :
    rainbowT demoChainA.residues.length 0 = 0 ∧
    rainbowCF rainbowStops demoChainA 0 = ⟨0, 0, 1, 1⟩ :=
  rainbow_single_residue demoChainA (by decide)

/-- C7: with an explicit range, a property value equal to the range minimum
maps to gradient position exactly 0 and one equal to the maximum to exactly 1
via (value - min)/(max - min), and the position is 0 when max equals min. -/
theorem byProp_range_endpoints (a b : ℚ) :
    propT a b a = 0 ∧
    (a ≠ b → propT a b b = 1) ∧
    (b = a → propT a b b = 0) ∧
    (a ≠ b → byPropCF rainbowStops a b a = gsample rainbowStops 0 ∧
             byPropCF rainbowStops a b b = gsample rainbowStops 1) := by
  have h0 : propT a b a = 0 := by
    unfold propT
    split
    · rfl
    · simp
  have h1 : a ≠ b → propT a b b = 1 := by
    intro hne
    unfold propT
    rw [if_neg (fun hba => hne hba.symm)]
    exact div_self (sub_ne_zero.mpr (Ne.symm hne))
  refine ⟨h0, h1, ?_, ?_⟩
  · intro hba
    unfold propT
    rw [if_pos hba]
  · intro hne
    constructor
    · simp only [byPropCF, h0]
    · simp only [byPropCF, h1 hne]

/-- Witness for C7: with range 0 to 2, the value 0 maps to position 0 and the
value 2 to position 1. -/
theorem byProp_range_endpoints_witness :
    propT 0 2 0 = 0 ∧ propT 0 2 2 = 1 :=
  ⟨(byProp_range_endpoints 0 2).1, (byProp_range_endpoints 0 2).2.1 (by decide)⟩

/-- C8: lifecycle contract of a coloring operation: begin happens exactly once
and first; when no colorFor call errors, colorFor happens exactly once per
source entity in the given order, and for ascending source indices the
colorFor events are ascending; end happens exactly once and last, also when a
colorFor call reported an error. -/
theorem lifecycle_contract (cf : ℕ → Option Color) (idxs : List ℕ) :
    (lifecycleEvents cf idxs).head? = some .begun ∧
    (lifecycleEvents cf idxs).count .begun = 1 ∧
    (lifecycleEvents cf idxs).getLast? = some .ended ∧
    (lifecycleEvents cf idxs).count .ended = 1 ∧
    ((∀ i ∈ idxs, (cf i).isSome) →
      lifecycleEvents cf idxs = .begun :: (idxs.map .colored ++ [.ended])) ∧
    (idxs.Pairwise (· < ·) →
      (colorLoop cf idxs).Pairwise
        (fun e1 e2 => ∀ i j, e1 = .colored i → e2 = .colored j → i < j)) := by
  have hb : ColorEvent.begun ∉ colorLoop cf idxs := by
    intro hmem
    obtain ⟨i, hi⟩ := colorLoop_mem cf idxs _ hmem
    exact ColorEvent.noConfusion hi
  have he : ColorEvent.ended ∉ colorLoop cf idxs := by
    intro hmem
    obtain ⟨i, hi⟩ := colorLoop_mem cf idxs _ hmem
    exact ColorEvent.noConfusion hi
  refine ⟨rfl, ?_, ?_, ?_, ?_, ?_⟩
  · simp [lifecycleEvents, List.count_append, List.count_cons,
      List.count_eq_zero.2 hb]
  · show (ColorEvent.begun :: (colorLoop cf idxs ++ [ColorEvent.ended])).getLast? =
      some ColorEvent.ended
    rw [← List.cons_append]
    exact List.getLast?_concat _
  · simp [lifecycleEvents, List.count_append, List.count_cons,
      List.count_eq_zero.2 he]
  · intro hall
    simp [lifecycleEvents, colorLoop_all_some cf idxs hall]
  · intro hsorted
    obtain ⟨l, hsub, heq⟩ := colorLoop_shape cf idxs
    rw [heq, List.pairwise_map]
    have hp := hsorted.sublist hsub
    refine hp.imp ?_
    intro a b hab i j hi hj
    cases hi
    cases hj
    exact hab

/-- Witness for C8: a three-entity run with an error-free coloring operation
gives the full event sequence, and ascending indices give ascending colorFor
events. -/
theorem lifecycle_contract_witness :
    lifecycleEvents (fun _ => some ⟨0, 0, 1, 1⟩) [0, 1, 2]
      = .begun :: ([0, 1, 2].map .colored ++ [.ended]) ∧
    (colorLoop (fun _ => some ⟨0, 0, 1, 1⟩) [0, 1, 2]).Pairwise
      (fun e1 e2 => ∀ i j, e1 = .colored i → e2 = .colored j → i < j) :=
  ⟨(lifecycle_contract (fun _ => some ⟨0, 0, 1, 1⟩) [0, 1, 2]).2.2.2.2.1 (by decide),
   (lifecycle_contract (fun _ => some ⟨0, 0, 1, 1⟩) [0, 1, 2]).2.2.2.2.2 (by decide)⟩

/-- C5: for a structure whose chain count is at most the rainbow gradient stop
count, byChain assigns pairwise-distinct colors to the chains, chain i
receiving gradient position i/(count-1) (0 when the count is 1), and repeated
application of the same byChain coloring to the same structure produces
identical colors. -/
theorem byChain_distinct (s : MolStructure)
    (hle : s.chains.length ≤ rainbowStops.length) :
    (∀ i j, i < s.chains.length → j < s.chains.length → i ≠ j →
      byChainCF rainbowStops s i ≠ byChainCF rainbowStops s j) ∧
    (∀ i, 2 ≤ s.chains.length →
      chainT s.chains.length i = (i : ℚ) / ((s.chains.length : ℚ) - 1)) ∧
    (s.chains.length = 1 → chainT s.chains.length 0 = 0) ∧
    (∀ g : GeomObject,
      colorBy (colorBy g (byChainCF rainbowStops s)) (byChainCF rainbowStops s)
        = colorBy g (byChainCF rainbowStops s)) := by
  refine ⟨?_, ?_, ?_, fun g => rfl⟩
  · intro i j hi hj hne
    simp only [byChainCF]
    have h4 : s.chains.length ≤ 4 := by simpa [rainbowStops] using hle
    generalize s.chains.length = n at hi hj h4 ⊢
    interval_cases n <;> interval_cases i <;> interval_cases j <;>
      first
        | exact absurd rfl hne
        | norm_num [chainT, gsample, clamp01, segSample, lerpColor, rainbowStops,
            Color.mk.injEq]
  · intro i h2
    unfold chainT
    rw [if_neg (by omega)]
  · intro h1
    rw [h1]
    simp [chainT]

/-- Witness for C5: the two chains of the demo structure receive distinct
byChain colors. -/
theorem byChain_distinct_witness :
    byChainCF rainbowStops demoStructure 0 ≠ byChainCF rainbowStops demoStructure 1 :=
  (byChain_distinct demoStructure (by decide)).1 0 1 (by decide) (by decide) (by decide)
